import Mathlib

/-!
Verification of the AuthAudioBot quota-and-access-code ledger and audio
pipeline.  The definitions below are a shallow embedding of the Python
source (`database.py`, `telegram_bot.py`, `minimax_api.py`): the SQLite
tables become partial maps keyed by their UNIQUE columns, each database
method becomes a pure state-passing function, and the external effects
(the speech provider, the file system, the ffmpeg process) become
explicit oracle parameters.  Columns that no property refers to (voice
preference fields, timestamps, free-text notes) are projected away;
timestamps are modelled as integers.
-/

namespace AuthAudioBot

/-- A row of the `users` table, restricted to the columns the ledger
properties concern.  `quota_remaining` is a generated column
`quota_total - quota_used` and is kept derived, never stored. -/
structure UserRow where
  telegram_id : Int
  username : Option String
  first_name : Option String
  last_name : Option String
  access_code : Option String
  quota_total : Int
  quota_used : Int
  deriving DecidableEq, Repr

/-- A row of the `access_codes` table (keyed by the UNIQUE `code`
column, which is the map key and therefore not repeated as a field). -/
structure CodeRow where
  quota_total : Int
  quota_used : Int
  max_users : Int
  current_users : Int
  expiry_date : Option Int
  is_active : Bool
  deriving DecidableEq, Repr

/-- The database state: the two tables the ledger operations touch,
as partial maps keyed by `telegram_id` and `code`. -/
structure DB where
  users : Int → Option UserRow
  access_codes : String → Option CodeRow

/-- Write (or delete) the user row with the given `telegram_id`. -/
def updUser (db : DB) (tid : Int) (r : Option UserRow) : DB :=
  { db with users := fun t => if t = tid then r else db.users t }

/-- Write (or delete) the access-code row with the given `code`. -/
def updCode (db : DB) (code : String) (r : Option CodeRow) : DB :=
  { db with access_codes := fun c => if c = code then r else db.access_codes c }

/-- `Database.add_user`: executes
`INSERT OR REPLACE INTO users (telegram_id, username, first_name,
last_name, last_active) VALUES (?,?,?,?,CURRENT_TIMESTAMP)`.
SQLite's `INSERT OR REPLACE` deletes the row that conflicts on the
UNIQUE `telegram_id` and inserts a fresh one, so every column not
listed in the statement takes its declared DEFAULT: `access_code`
becomes NULL and `quota_total`/`quota_used` become 0.  Returns `true`
(the non-exceptional path). -/
def add_user (db : DB) (telegram_id : Int) (username first_name last_name : Option String) :
    DB × Bool :=
  (updUser db telegram_id (some
    { telegram_id := telegram_id
      username := username
      first_name := first_name
      last_name := last_name
      access_code := none
      quota_total := 0
      quota_used := 0 }), true)

/-- The dictionary returned by `Database.get_user_quota`. -/
structure QuotaInfo where
  code : Option String
  total : Int
  used : Int
  remaining : Int
  expiry : Option Int
  is_active : Bool
  deriving DecidableEq, Repr

/-- `Database.get_user_quota`: `SELECT ... FROM users u LEFT JOIN
access_codes ac ON u.access_code = ac.code WHERE u.telegram_id = ?`.
When the user has no code, or the code row is missing, the joined
columns are NULL: `expiry` is `none` and `bool(None)` is `false`. -/
def get_user_quota (db : DB) (telegram_id : Int) : Option QuotaInfo :=
  match db.users telegram_id with
  | none => none
  | some u =>
    let ac := u.access_code.bind db.access_codes
    some
      { code := u.access_code
        total := u.quota_total
        used := u.quota_used
        remaining := u.quota_total - u.quota_used
        expiry := ac.bind (fun r => r.expiry_date)
        is_active := (ac.map (fun r => r.is_active)).getD false }

/-- `Database.use_quota`.  Its first statement is the guarded update
`UPDATE users SET quota_used = quota_used + ? WHERE telegram_id = ?
AND quota_remaining >= ?`.  When that affects no row (absent user, or
insufficient remaining quota) the function commits nothing of interest
and returns `False`.  When it does affect a row, the function goes on
to execute `UPDATE access_codes ac SET quota_used = quota_used + ?
FROM users u WHERE u.telegram_id = ? AND ac.code = u.access_code`:
SQLite rejects that statement at prepare time (the UPDATE target's
alias requires `AS` — OperationalError: near "ac": syntax error — and
even with `AS` the unqualified `quota_used` is ambiguous), so
`cursor.execute` raises, the `except` handler returns `False`, and
`conn.commit()` is never reached — the uncommitted first update rolls
back when the connection is discarded.  Hence every call returns
`False` and leaves the persisted state unchanged; the branch structure
of the source is kept below so each return path can be traced. -/
def use_quota (db : DB) (telegram_id : Int) (char_count : Int) : DB × Bool :=
  match db.users telegram_id with
  | none => (db, false)
  | some u =>
    if u.quota_total - u.quota_used ≥ char_count then
      (db, false)
    else (db, false)

/-- The dictionary returned by `Database.activate_access_code`. -/
structure ActResult where
  success : Bool
  message : String
  quota : Option Int
  expiry : Option Int
  deriving DecidableEq, Repr

/-- The expiry test of `activate_access_code`: the code's
`expiry_date` is checked only when it is set, and the code is expired
when `datetime.now() > expiry`. -/
def isExpired (now : Int) (expiry_date : Option Int) : Bool :=
  match expiry_date with
  | none => false
  | some e => decide (now > e)

/-- `Database.activate_access_code`.  The lookup
`SELECT * FROM access_codes WHERE code = ? AND is_active = 1` returns
no row both when the code is absent and when it is inactive, and both
cases produce the same `'Invalid or inactive access code'` failure
dictionary; the embedding keeps the two tests separate but returns the
identical result value, exactly as the source does.  On the success
path the user row is updated (when the user exists; the SQL `UPDATE`
simply affects no row otherwise) and the code row's `current_users` is
incremented by 1 and its `quota_used` by the code's `quota_total`. -/
def activate_access_code (db : DB) (now : Int) (telegram_id : Int) (code : String) :
    DB × ActResult :=
  match db.access_codes code with
  | none => (db, ⟨false, "Invalid or inactive access code", none, none⟩)
  | some cd =>
    if cd.is_active = false then
      (db, ⟨false, "Invalid or inactive access code", none, none⟩)
    else if isExpired now cd.expiry_date then
      (db, ⟨false, "Access code has expired", none, none⟩)
    else if cd.max_users > 0 ∧ cd.current_users ≥ cd.max_users then
      (db, ⟨false, "Access code user limit reached", none, none⟩)
    else
      let db1 :=
        match db.users telegram_id with
        | none => db
        | some u =>
          updUser db telegram_id (some
            { u with access_code := some code, quota_total := cd.quota_total, quota_used := 0 })
      let db2 := updCode db1 code (some
        { cd with current_users := cd.current_users + 1,
                  quota_used := cd.quota_used + cd.quota_total })
      (db2, ⟨true, "Access code activated", some cd.quota_total, cd.expiry_date⟩)

/-- A sequence of `use_quota` calls on one user, returning the final
state and the list of returned flags, in call order. -/
def debitSeq (db : DB) (telegram_id : Int) : List Int → DB × List Bool
  | [] => (db, [])
  | n :: ns =>
    let p := use_quota db telegram_id n
    let q := debitSeq p.1 telegram_id ns
    (q.1, p.2 :: q.2)

/-! ### The `/tts` handler (`TelegramBot.tts_command`)

The handler's observable reply to the end user, and the database effect
of the request.  The text is modelled as its character list.  The
synthesis call is an await on the external provider and is modelled by
its outcome (`synthOk`, `synthErr`); other concurrent tasks can mutate
the database while that await is pending, which is modelled by an
`interfere` function applied to the state between the pre-flight quota
read and the post-synthesis debit. -/

/-- The user-visible reply chosen by `tts_command`. -/
inductive TtsResponse where
  | noText
  | tooLong
  | insufficientQuota (required available : Int)
  | generationError (msg : String)
  | successVoice (chars remainingShown : Int)
  deriving DecidableEq, Repr

/-- What a `/tts` request did: the reply sent, the value the
post-synthesis `use_quota` call returned (`none` when that call was
never reached), and the final database state.  The source discards the
`use_quota` return value; the embedding records it as an observation
without acting on it, exactly as the source does. -/
structure TtsOutcome where
  response : TtsResponse
  debitReturned : Option Bool
  db : DB

/-- `TelegramBot.tts_command`: no-text and over-5000 rejections, the
pre-flight quota check (`not user_quota or user_quota.get('remaining', 0)
< len(text)`), the synthesis call, then — on synthesis success — the
debit whose result is ignored, and the success reply whose remaining
figure is computed from the pre-flight read
(`user_quota['remaining'] - len(text)`). -/
def tts_command (db : DB) (interfere : DB → DB) (telegram_id : Int) (text : List Char)
    (synthOk : Bool) (synthErr : String) : TtsOutcome :=
  if text.isEmpty then ⟨.noText, none, db⟩
  else if text.length > 5000 then ⟨.tooLong, none, db⟩
  else
    match get_user_quota db telegram_id with
    | none => ⟨.insufficientQuota text.length 0, none, db⟩
    | some q =>
      if q.remaining < text.length then
        ⟨.insufficientQuota text.length q.remaining, none, db⟩
      else if synthOk = false then
        ⟨.generationError synthErr, none, db⟩
      else
        let db1 := interfere db
        let p := use_quota db1 telegram_id text.length
        ⟨.successVoice text.length (q.remaining - text.length), some p.2, p.1⟩

/-! ### The provider client (`MinimaxAPI.generate_tts`) -/

/-- The request body assembled by `generate_tts`; the emotion is
omitted from the payload when it is `'auto'`. -/
structure Payload where
  model : String
  text : List Char
  voice_id : String
  emotion : Option String
  deriving DecidableEq, Repr

/-- The provider's answer, as `generate_tts` consumes it: the HTTP
status, the `base_resp.status_code`/`status_msg` envelope, and the
`data.audio` URL when present. -/
structure ProviderResponse where
  http_status : Int
  status_code : Int
  status_msg : String
  audio_url : Option String
  deriving DecidableEq, Repr

/-- The dictionary returned by `generate_tts`. -/
structure TtsResult where
  success : Bool
  error : Option String
  audio_data : Option (List Nat)
  format : Option String
  codec : Option String
  sample_rate : Option Int
  channels : Option Int
  deriving DecidableEq, Repr

/-- A `generate_tts` run: whether a request was issued to the provider,
the payload it carried, and the returned dictionary. -/
structure GenOutcome where
  requestIssued : Bool
  payload : Option Payload
  result : TtsResult
  deriving DecidableEq, Repr

/-- A failure dictionary of `generate_tts`. -/
def ttsFail (msg : String) : TtsResult :=
  ⟨false, some msg, none, none, none, none, none⟩

/-- `MinimaxAPI.generate_tts`: builds the payload (emotion `'auto'`
omitted), posts it to the provider unconditionally — the function
contains no text-length validation — and then branches on the HTTP
status, the provider status envelope, the presence of the audio URL and
the result of `_download_and_convert` (abstracted here as the
`convert` oracle), exactly in source order. -/
def generate_tts (text : List Char) (voice_id : String) (emotion : String)
    (resp : ProviderResponse) (convert : Option (List Nat)) : GenOutcome :=
  let payload : Payload :=
    { model := "speech-2.6-turbo"
      text := text
      voice_id := voice_id
      emotion := if emotion = "auto" then none else some emotion }
  let result : TtsResult :=
    if resp.http_status ≠ 200 then
      ttsFail ("API Error: " ++ toString resp.http_status)
    else if resp.status_code ≠ 0 then
      ttsFail ("Minimax Error: " ++ resp.status_msg)
    else
      match resp.audio_url with
      | none => ttsFail "No audio URL in response"
      | some _ =>
        match convert with
        | none => ttsFail "Failed to process audio"
        | some bytes =>
          ⟨true, none, some bytes, some "ogg", some "libopus", some 48000, some 1⟩
  { requestIssued := true, payload := some payload, result := result }

/-! ### The download-and-transcode step (`MinimaxAPI._download_and_convert`)

The file system is a list of paths; the network download, the ffmpeg
child process and the result-file read are oracles.  The Python
function's `finally` block iterates over `[mp3_path, ogg_path]`; when
the try body exits before `mp3_path = mp3_file.name` was executed
(download HTTP failure, or an exception raised before the temporary
file is created), evaluating that list raises `NameError`
(`UnboundLocalError`), which escapes the function in place of the
pending `return None`. -/

/-- The outcome of the HTTP download of the provider's audio URL. -/
inductive DlOutcome where
  | httpFail (status : Int)
  | exn
  | ok (bytes : List Nat)
  deriving DecidableEq, Repr

/-- The oracles of one `_download_and_convert` run: the download
outcome, the temporary-file base name chosen by
`tempfile.NamedTemporaryFile` (the mp3 path is `tmpBase ++ ".mp3"` and
the ffmpeg output path is obtained by replacing that suffix with
`".ogg"`), the ffmpeg run (`none` = the spawn raised; `some (rc, made)`
= it returned exit code `rc`, having created the output file iff
`made`), whether reading the output file back succeeds, and the bytes
it contains. -/
structure ConvEnv where
  download : DlOutcome
  tmpBase : String
  ffmpeg : Option (Int × Bool)
  readOk : Bool
  oggBytes : List Nat
  deriving DecidableEq, Repr

/-- How a `_download_and_convert` call leaves the function: a normal
`return` of the optional converted bytes, or the `NameError` escaping
from the cleanup block. -/
inductive ConvExit where
  | ret (v : Option (List Nat))
  | nameError
  deriving DecidableEq, Repr

/-- Delete both temporary paths from the file system (the cleanup
loop's `os.unlink` guarded by `os.path.exists` and a swallowing
`except`). -/
def removeTemps (fs : List String) (mp3 ogg : String) : List String :=
  fs.filter (fun p => ¬(p = mp3 ∨ p = ogg))

/-- `MinimaxAPI._download_and_convert` over the file-system state:
every path of the `try` body followed by the `finally` cleanup.  On the
paths that exit before the temporary mp3 file is created and its name
bound, the cleanup block itself raises `NameError` and the function
exits exceptionally with the file system untouched; on every later
path both temporary files are deleted (explicitly on success, by the
cleanup loop otherwise). -/
def download_and_convert (fs : List String) (env : ConvEnv) : ConvExit × List String :=
  let mp3 := env.tmpBase ++ ".mp3"
  let ogg := env.tmpBase ++ ".ogg"
  match env.download with
  | .httpFail _ => (.nameError, fs)
  | .exn => (.nameError, fs)
  | .ok _ =>
    let fs1 := mp3 :: fs
    match env.ffmpeg with
    | none => (.ret none, removeTemps fs1 mp3 ogg)
    | some (rc, made) =>
      let fs2 := if made then ogg :: fs1 else fs1
      if rc ≠ 0 then (.ret none, removeTemps fs2 mp3 ogg)
      else if env.readOk ∧ made then (.ret (some env.oggBytes), removeTemps fs2 mp3 ogg)
      else (.ret none, removeTemps fs2 mp3 ogg)

/-! ### Concrete states used to instantiate the theorems -/

/-- A user who has redeemed code `TTS-A`: 100 characters granted, 30
already used. -/
def exUser : UserRow :=
  { telegram_id := 1
    username := some "alice"
    first_name := some "Alice"
    last_name := none
    access_code := some "TTS-A"
    quota_total := 100
    quota_used := 30 }

/-- The code `exUser` redeemed: one slot of three taken, the full
100-character grant recorded as distributed. -/
def exCode : CodeRow :=
  { quota_total := 100
    quota_used := 100
    max_users := 3
    current_users := 1
    expiry_date := none
    is_active := true }

/-- A database holding `exUser` and `exCode`. -/
def exDB : DB where
  users := fun t => if t = 1 then some exUser else none
  access_codes := fun c => if c = "TTS-A" then some exCode else none

/-- An empty database: no users, no codes. -/
def emptyDB : DB where
  users := fun _ => none
  access_codes := fun _ => none

/-- A code row that is present but disabled. -/
def disabledCode : CodeRow :=
  { quota_total := 100
    quota_used := 0
    max_users := 1
    current_users := 0
    expiry_date := none
    is_active := false }

/-- A database whose only code `TTS-X` is `disabledCode`. -/
def disabledDB : DB where
  users := fun _ => none
  access_codes := fun c => if c = "TTS-X" then some disabledCode else none

/-- A fresh user with no code and zero quota. -/
def freshUser : UserRow :=
  { telegram_id := 1
    username := none
    first_name := some "Bob"
    last_name := none
    access_code := none
    quota_total := 0
    quota_used := 0 }

/-- An active code that expired at time 10, with a free slot. -/
def expiredCode : CodeRow :=
  { quota_total := 500
    quota_used := 0
    max_users := 2
    current_users := 1
    expiry_date := some 10
    is_active := true }

/-- A database with `freshUser` and the expired code `TTS-E`. -/
def expiredDB : DB where
  users := fun t => if t = 1 then some freshUser else none
  access_codes := fun c => if c = "TTS-E" then some expiredCode else none

/-- An active, unexpired code with one of its two slots taken
(`current_users = max_users - 1`). -/
def capacityCode : CodeRow :=
  { quota_total := 500
    quota_used := 500
    max_users := 2
    current_users := 1
    expiry_date := none
    is_active := true }

/-- A database with `freshUser` and the nearly-full code `TTS-C`. -/
def capacityDB : DB where
  users := fun t => if t = 1 then some freshUser else none
  access_codes := fun c => if c = "TTS-C" then some capacityCode else none

/-! ### Helper lemmas -/

/-- Every `use_quota` call returns `false` and leaves the state
unchanged: the guarded first UPDATE either affects no row, or its
effect is rolled back when the broken second UPDATE raises before the
commit. -/
theorem use_quota_eq (db : DB) (tid n : Int) : use_quota db tid n = (db, false) := by
  cases h : db.users tid <;> simp [use_quota, h]

/-! ### The claims -/

/-- Claim C1 (code_bug evidence): the debit never applies.  Every
`use_quota` call returns `false` with the state unchanged — the second
UPDATE of `use_quota` is a SQLite prepare-time error, so whenever the
guarded first UPDATE does affect a row the call raises, returns
`False` and rolls back — hence every debit sequence leaves the ledger
untouched and reports all-failures; in particular user 1, who has room
for a 10-character debit (`quota_used + 10 ≤ quota_total`), is refused
it. -/
theorem use_quota_never_debits :
    (∀ (db : DB) (tid n : Int), use_quota db tid n = (db, false)) ∧
    (∀ (db : DB) (tid : Int) (ns : List Int),
       (debitSeq db tid ns).1 = db ∧
       (debitSeq db tid ns).2 = List.replicate ns.length false) ∧
    exDB.users 1 = some exUser ∧
    exUser.quota_used + 10 ≤ exUser.quota_total ∧
    use_quota exDB 1 10 = (exDB, false) := by
  have hseq : ∀ (tid : Int) (ns : List Int) (db : DB),
      (debitSeq db tid ns).1 = db ∧
      (debitSeq db tid ns).2 = List.replicate ns.length false := by
    intro tid ns
    induction ns with
    | nil => intro db; exact ⟨rfl, rfl⟩
    | cons n ns ih =>
      intro db
      simp only [debitSeq, use_quota_eq, List.length_cons, List.replicate]
      exact ⟨(ih db).1, by rw [(ih db).2]⟩
  exact ⟨use_quota_eq, fun db tid ns => hseq tid ns db, by decide, by decide,
    use_quota_eq exDB 1 10⟩

/-- Claim C2 (code_bug evidence): `add_user` on an already-existing
user does not preserve the quota fields.  `INSERT OR REPLACE` replaces
the whole row, so the refresh resets `access_code` to NULL and
`quota_total`/`quota_used` to their column defaults 0: user 1, who held
code `TTS-A` with 100 granted and 30 used, loses all three fields. -/
theorem add_user_clears_quota_on_refresh :
    exDB.users 1 = some exUser ∧
    exUser.access_code = some "TTS-A" ∧ exUser.quota_total = 100 ∧ exUser.quota_used = 30 ∧
    (add_user exDB 1 (some "alice") (some "Alice") none).2 = true ∧
    (add_user exDB 1 (some "alice") (some "Alice") none).1.users 1 =
      some { telegram_id := 1, username := some "alice", first_name := some "Alice",
             last_name := none, access_code := none, quota_total := 0,
             quota_used := 0 } := by
  decide

/-- Claim C3: a code row's `current_users` and `quota_used` are
mutated only by redemption.  A `use_quota` call never changes any
`access_codes` row (in particular a debit leaves the user's code row
unchanged: the intended second UPDATE never executes and nothing the
call did persists), `add_user` never touches the `access_codes` table,
and a successful redemption increments the redeemed code's
`current_users` by 1 and its `quota_used` by the code's `quota_total`
— the cumulative grant distributed, never a spoken character count —
while leaving every other code row unchanged. -/
theorem code_rows_only_mutated_by_redemption (db : DB) (now tid : Int) (c : String)
    (cd : CodeRow) (hc : db.access_codes c = some cd) (ha : cd.is_active = true)
    (hexp : isExpired now cd.expiry_date = false)
    (hcap : ¬(cd.max_users > 0 ∧ cd.current_users ≥ cd.max_users)) :
    (∀ (tid' n : Int) (c' : String),
       (use_quota db tid' n).1.access_codes c' = db.access_codes c') ∧
    (∀ (tid' : Int) (un fn ln : Option String) (c' : String),
       (add_user db tid' un fn ln).1.access_codes c' = db.access_codes c') ∧
    (activate_access_code db now tid c).2.success = true ∧
    (activate_access_code db now tid c).1.access_codes c =
      some { cd with current_users := cd.current_users + 1,
                     quota_used := cd.quota_used + cd.quota_total } ∧
    (∀ c', c' ≠ c →
       (activate_access_code db now tid c).1.access_codes c' = db.access_codes c') := by
  refine ⟨?_, ?_, ?_, ?_, ?_⟩
  · intro tid' n c'
    rw [use_quota_eq]
  · intro tid' un fn ln c'
    rfl
  · simp only [activate_access_code, hc, ha, hexp, if_neg hcap, Bool.false_eq_true,
      if_false]
    cases hut : db.users tid <;> trivial
  · simp only [activate_access_code, hc, ha, hexp, if_neg hcap, Bool.false_eq_true,
      if_false]
    cases hut : db.users tid <;> simp [updUser, updCode]
  · intro c' hne
    simp only [activate_access_code, hc, ha, hexp, if_neg hcap, Bool.false_eq_true,
      if_false]
    cases hut : db.users tid <;> simp [updUser, updCode, hne]

/-- Witness for C3 at the concrete ledger: debits and user refreshes
on `exDB` leave code `TTS-A` untouched, and redeeming it adds its full
100-character grant to the code's `quota_used` and one redeemer to
`current_users`. -/
theorem code_rows_only_mutated_by_redemption_witness :
    exDB.access_codes "TTS-A" = some exCode ∧ exCode.is_active = true ∧
    isExpired 0 exCode.expiry_date = false ∧
    ¬(exCode.max_users > 0 ∧ exCode.current_users ≥ exCode.max_users) ∧
    ((∀ (tid' n : Int) (c' : String),
       (use_quota exDB tid' n).1.access_codes c' = exDB.access_codes c') ∧
     (∀ (tid' : Int) (un fn ln : Option String) (c' : String),
       (add_user exDB tid' un fn ln).1.access_codes c' = exDB.access_codes c') ∧
     (activate_access_code exDB 0 1 "TTS-A").2.success = true ∧
     (activate_access_code exDB 0 1 "TTS-A").1.access_codes "TTS-A" =
       some { exCode with current_users := exCode.current_users + 1,
                          quota_used := exCode.quota_used + exCode.quota_total } ∧
     (∀ c', c' ≠ "TTS-A" →
       (activate_access_code exDB 0 1 "TTS-A").1.access_codes c' =
         exDB.access_codes c')) :=
  ⟨by decide, by decide, rfl, by decide,
   code_rows_only_mutated_by_redemption exDB 0 1 "TTS-A" exCode
     (by decide) (by decide) rfl (by decide)⟩

/-- Claim C5: redeeming a code whose `expiry_date` is set and earlier
than `now` always fails and mutates nothing — the whole database is
returned unchanged — and, when the code is active (so that the expiry
branch is the one reporting the failure), the outcome is the expired
message. -/
theorem activate_expired_fails (db : DB) (now tid : Int) (c : String) (cd : CodeRow) (e : Int)
    (hc : db.access_codes c = some cd) (he : cd.expiry_date = some e) (hlt : e < now) :
    (activate_access_code db now tid c).1 = db ∧
    (activate_access_code db now tid c).2.success = false ∧
    (cd.is_active = true →
      (activate_access_code db now tid c).2.message = "Access code has expired") := by
  have hexp : isExpired now cd.expiry_date = true := by
    simp [isExpired, he]
    omega
  by_cases ha : cd.is_active = true
  · simp [activate_access_code, hc, ha, hexp]
  · simp only [activate_access_code, hc]
    rw [if_pos (by simpa using ha)]
    simp [ha]

/-- Witness for C5: code `TTS-E` expired at time 10, redeemed at time
20. -/
theorem activate_expired_fails_witness :
    expiredDB.access_codes "TTS-E" = some expiredCode ∧
    expiredCode.expiry_date = some 10 ∧ (10 : Int) < 20 ∧
    ((activate_access_code expiredDB 20 1 "TTS-E").1 = expiredDB ∧
     (activate_access_code expiredDB 20 1 "TTS-E").2.success = false ∧
     (expiredCode.is_active = true →
      (activate_access_code expiredDB 20 1 "TTS-E").2.message = "Access code has expired")) :=
  ⟨by decide, rfl, by decide,
   activate_expired_fails expiredDB 20 1 "TTS-E" expiredCode 10 (by decide) rfl (by decide)⟩

/-- Claim C6: redemption respects the capacity boundary exactly.  For
an active, unexpired code: with `max_users > 0`, redeeming at
`current_users ≥ max_users` fails with the limit message and mutates
nothing, while redeeming at `current_users = max_users - 1` succeeds,
rewrites the user row to the new grant and brings the code to exactly
`max_users`; with `max_users = 0` the capacity check can never fail. -/
theorem activate_capacity_boundary (db : DB) (now tid : Int) (c : String) (cd : CodeRow)
    (u : UserRow) (hc : db.access_codes c = some cd) (ha : cd.is_active = true)
    (hexp : isExpired now cd.expiry_date = false) (hu : db.users tid = some u) :
    (cd.max_users > 0 → cd.current_users ≥ cd.max_users →
       (activate_access_code db now tid c).1 = db ∧
       (activate_access_code db now tid c).2 =
         ⟨false, "Access code user limit reached", none, none⟩) ∧
    (cd.max_users > 0 → cd.current_users = cd.max_users - 1 →
       (activate_access_code db now tid c).2.success = true ∧
       (activate_access_code db now tid c).1.users tid =
         some { u with access_code := some c, quota_total := cd.quota_total,
                       quota_used := 0 } ∧
       (activate_access_code db now tid c).1.access_codes c =
         some { cd with current_users := cd.max_users,
                        quota_used := cd.quota_used + cd.quota_total }) ∧
    (cd.max_users = 0 →
       (activate_access_code db now tid c).2.success = true ∧
       (activate_access_code db now tid c).1.access_codes c =
         some { cd with current_users := cd.current_users + 1,
                        quota_used := cd.quota_used + cd.quota_total }) := by
  refine ⟨fun h1 h2 => ?_, fun h1 h2 => ?_, fun h0 => ?_⟩
  · simp [activate_access_code, hc, ha, hexp, h1, h2]
  · have hcap : ¬(cd.max_users > 0 ∧ cd.current_users ≥ cd.max_users) := by omega
    have hcur : cd.current_users + 1 = cd.max_users := by omega
    simp only [activate_access_code, hc, ha, hexp, if_neg hcap, hu, Bool.false_eq_true,
      if_false, updUser, updCode]
    refine ⟨by trivial, by simp, ?_⟩
    simp [hcur]
  · have hcap : ¬(cd.max_users > 0 ∧ cd.current_users ≥ cd.max_users) := by omega
    simp only [activate_access_code, hc, ha, hexp, if_neg hcap, Bool.false_eq_true, if_false,
      updCode]
    cases hut : db.users tid <;> simp [updUser, updCode]

/-- Witness for C6: code `TTS-C` has `max_users = 2` and
`current_users = 1 = max_users - 1`; user 1 redeems it. -/
theorem activate_capacity_boundary_witness :
    capacityDB.access_codes "TTS-C" = some capacityCode ∧
    capacityCode.is_active = true ∧ isExpired 0 capacityCode.expiry_date = false ∧
    capacityDB.users 1 = some freshUser ∧
    ((capacityCode.max_users > 0 → capacityCode.current_users ≥ capacityCode.max_users →
       (activate_access_code capacityDB 0 1 "TTS-C").1 = capacityDB ∧
       (activate_access_code capacityDB 0 1 "TTS-C").2 =
         ⟨false, "Access code user limit reached", none, none⟩) ∧
     (capacityCode.max_users > 0 →
       capacityCode.current_users = capacityCode.max_users - 1 →
       (activate_access_code capacityDB 0 1 "TTS-C").2.success = true ∧
       (activate_access_code capacityDB 0 1 "TTS-C").1.users 1 =
         some { freshUser with access_code := some "TTS-C",
                               quota_total := capacityCode.quota_total,
                               quota_used := 0 } ∧
       (activate_access_code capacityDB 0 1 "TTS-C").1.access_codes "TTS-C" =
         some { capacityCode with current_users := capacityCode.max_users,
                                  quota_used := capacityCode.quota_used +
                                    capacityCode.quota_total })) := by
  have h := activate_capacity_boundary capacityDB 0 1 "TTS-C" capacityCode freshUser
    (by decide) rfl rfl (by decide)
  exact ⟨by decide, rfl, rfl, by decide, h.1, h.2.1⟩

/-- Counterexample to claim C7 as stated: an absent code and an
existing-but-disabled code do not produce distinguishable outcomes —
`activate_access_code` returns the identical
`'Invalid or inactive access code'` failure dictionary for both. -/
theorem notfound_and_disabled_same_outcome :
    emptyDB.access_codes "TTS-X" = none ∧
    disabledDB.access_codes "TTS-X" = some disabledCode ∧
    disabledCode.is_active = false ∧
    (activate_access_code emptyDB 0 1 "TTS-X").2 =
      (activate_access_code disabledDB 0 1 "TTS-X").2 ∧
    (activate_access_code emptyDB 0 1 "TTS-X").2.success = false := by
  decide

/-- Claim C7 as amended: redeeming an absent code fails, and redeeming
a disabled code fails, but both failures carry one and the same
outcome value (`'Invalid or inactive access code'`) — the two cases
are not distinguishable by the caller. -/
theorem activate_merges_notfound_and_disabled (db : DB) (now tid : Int) (c : String) :
    (db.access_codes c = none →
       activate_access_code db now tid c =
         (db, ⟨false, "Invalid or inactive access code", none, none⟩)) ∧
    (∀ cd, db.access_codes c = some cd → cd.is_active = false →
       activate_access_code db now tid c =
         (db, ⟨false, "Invalid or inactive access code", none, none⟩)) := by
  constructor
  · intro h
    simp [activate_access_code, h]
  · intro cd h hna
    simp [activate_access_code, h, hna]

/-- Witness for the amended C7: the absent code of `emptyDB` and the
disabled code of `disabledDB`. -/
theorem activate_merges_notfound_and_disabled_witness :
    (emptyDB.access_codes "TTS-X" = none ∧
     activate_access_code emptyDB 0 1 "TTS-X" =
       (emptyDB, ⟨false, "Invalid or inactive access code", none, none⟩)) ∧
    (disabledDB.access_codes "TTS-X" = some disabledCode ∧
     disabledCode.is_active = false ∧
     activate_access_code disabledDB 0 1 "TTS-X" =
       (disabledDB, ⟨false, "Invalid or inactive access code", none, none⟩)) :=
  ⟨⟨rfl, (activate_merges_notfound_and_disabled emptyDB 0 1 "TTS-X").1 rfl⟩,
   ⟨by decide, rfl,
    (activate_merges_notfound_and_disabled disabledDB 0 1 "TTS-X").2 disabledCode
      (by decide) rfl⟩⟩

/-- Claim C10: redemption performs no duplicate-redeemer check.  A
user whose row already references code `c` can redeem `c` again while
it is active, unexpired and under capacity: the redemption succeeds a
second time, increments the code's `current_users` again, adds the
code's `quota_total` to its `quota_used` again, and resets the user's
own `quota_used` to 0. -/
theorem activate_duplicate_redemption (db : DB) (now tid : Int) (c : String) (cd : CodeRow)
    (u : UserRow) (hu : db.users tid = some u) (hprev : u.access_code = some c)
    (hc : db.access_codes c = some cd) (ha : cd.is_active = true)
    (hexp : isExpired now cd.expiry_date = false)
    (hcap : cd.max_users = 0 ∨ cd.current_users < cd.max_users) :
    (activate_access_code db now tid c).2.success = true ∧
    (activate_access_code db now tid c).1.users tid =
      some { u with access_code := some c, quota_total := cd.quota_total,
                    quota_used := 0 } ∧
    (activate_access_code db now tid c).1.access_codes c =
      some { cd with current_users := cd.current_users + 1,
                     quota_used := cd.quota_used + cd.quota_total } := by
  have hncap : ¬(cd.max_users > 0 ∧ cd.current_users ≥ cd.max_users) := by omega
  simp only [activate_access_code, hc, ha, hexp, if_neg hncap, hu, Bool.false_eq_true,
    if_false, updUser, updCode]
  refine ⟨by trivial, by simp, by simp⟩

/-- Witness for C10: user 1 already holds code `TTS-A`
(`current_users = 1` of 3) and redeems it again. -/
theorem activate_duplicate_redemption_witness :
    exDB.users 1 = some exUser ∧ exUser.access_code = some "TTS-A" ∧
    exDB.access_codes "TTS-A" = some exCode ∧ exCode.is_active = true ∧
    isExpired 0 exCode.expiry_date = false ∧
    (exCode.max_users = 0 ∨ exCode.current_users < exCode.max_users) ∧
    ((activate_access_code exDB 0 1 "TTS-A").2.success = true ∧
     (activate_access_code exDB 0 1 "TTS-A").1.users 1 =
       some { exUser with access_code := some "TTS-A", quota_total := exCode.quota_total,
                          quota_used := 0 } ∧
     (activate_access_code exDB 0 1 "TTS-A").1.access_codes "TTS-A" =
       some { exCode with current_users := exCode.current_users + 1,
                          quota_used := exCode.quota_used + exCode.quota_total }) :=
  ⟨by decide, by decide, by decide, by decide, by decide, by decide,
   activate_duplicate_redemption exDB 0 1 "TTS-A" exCode exUser
     (by decide) (by decide) (by decide) (by decide) rfl (by decide)⟩

/-- Claim C4 (code_bug evidence): when the post-synthesis debit
returns `false` — in this program that is every call, since
`use_quota` always fails on its broken second UPDATE, race or no race
— `tts_command` ignores that value and still sends the success voice
message (with the remaining figure computed from the pre-flight
read).  The interference slot models the concurrent task the claim
describes; here it performs the concurrent debit, which (like all
debits) persists nothing. -/
theorem tts_sends_success_despite_failed_debit :
    (tts_command exDB (fun d => (use_quota d 1 70).1) 1
       (List.replicate 70 'a') true "").debitReturned = some false ∧
    (tts_command exDB (fun d => (use_quota d 1 70).1) 1
       (List.replicate 70 'a') true "").response = TtsResponse.successVoice 70 0 := by
  decide

/-- Counterexample to claim C8 as stated: `generate_tts` contains no
length validation — on a 5001-character text it does not reject the
request but issues the provider request and, with a well-formed
provider response, returns success. -/
theorem generate_tts_accepts_overlong_text :
    (List.replicate 5001 'a').length > 5000 ∧
    (generate_tts (List.replicate 5001 'a') "voice" "auto"
       ⟨200, 0, "", some "url"⟩ (some [0])).requestIssued = true ∧
    (generate_tts (List.replicate 5001 'a') "voice" "auto"
       ⟨200, 0, "", some "url"⟩ (some [0])).result.success = true := by
  refine ⟨?_, rfl, by decide⟩
  simp only [List.length_replicate]
  omega

/-- Claim C8 as amended: the 5000-character ceiling is enforced only
by the caller — `generate_tts` always issues the provider request,
whatever the text length, while `tts_command` rejects over-ceiling
texts before any synthesis and leaves the state untouched. -/
theorem length_ceiling_enforced_by_caller_only (text : List Char)
    (voice_id emotion : String) (resp : ProviderResponse) (convert : Option (List Nat)) :
    (generate_tts text voice_id emotion resp convert).requestIssued = true ∧
    (∀ (db : DB) (intf : DB → DB) (tid : Int), text.length > 5000 →
       tts_command db intf tid text true "" = ⟨.tooLong, none, db⟩) := by
  refine ⟨rfl, ?_⟩
  intro db intf tid h
  have hne : text.isEmpty = false := by
    cases text with
    | nil => simp at h
    | cons a t => rfl
  simp [tts_command, hne, h]

/-- Witness for the amended C8: a 5001-character text. -/
theorem length_ceiling_enforced_by_caller_only_witness :
    (List.replicate 5001 'a').length > 5000 ∧
    (generate_tts (List.replicate 5001 'a') "voice" "happy"
       ⟨200, 0, "", some "url"⟩ (some [0])).requestIssued = true ∧
    tts_command emptyDB id 1 (List.replicate 5001 'a') true "" =
      ⟨.tooLong, none, emptyDB⟩ := by
  have hlen : (List.replicate 5001 'a').length > 5000 := by
    simp only [List.length_replicate]
    omega
  have h := length_ceiling_enforced_by_caller_only (List.replicate 5001 'a')
    "voice" "happy" ⟨200, 0, "", some "url"⟩ (some [0])
  exact ⟨hlen, h.1, h.2 emptyDB id 1 hlen⟩

/-- Claim C9 (code_bug evidence): when the download step fails — a
non-200 HTTP status or a network exception — the `finally` cleanup
block of `_download_and_convert` evaluates `[mp3_path, ogg_path]`
before either name was bound and raises `NameError`, so the call exits
by an unhandled error instead of returning `None` (the file system is
untouched, as no temporary file had been created yet).  On the paths
where the temporary files do exist — ffmpeg failure or success — both
files are removed. -/
theorem download_cleanup_raises_on_download_failure :
    download_and_convert [] ⟨.httpFail 404, "/tmp/t1", none, true, []⟩ =
      (.nameError, []) ∧
    download_and_convert ["keep"] ⟨.exn, "/tmp/t1", none, true, []⟩ =
      (.nameError, ["keep"]) ∧
    download_and_convert ["keep"] ⟨.ok [7], "/tmp/t1", some (1, true), true, [9]⟩ =
      (.ret none, ["keep"]) ∧
    download_and_convert ["keep"] ⟨.ok [7], "/tmp/t1", some (0, true), true, [9]⟩ =
      (.ret (some [9]), ["keep"]) := by
  decide

end AuthAudioBot
